import Mathlib

/-!
Verification of the Museum Alive app (src/app.py).

The app is a single linear Streamlit script.  One user interaction is one
run of the script over a fixed set of widget values and external-service
outcomes.  We embed that run as a pure function from an environment
(widget state plus the outcome each external call would produce) to the
list of observable effects the script performs, in order.

External services are modelled by their outcomes carried in the
environment: the chat-completion call either yields a response content
string or raises (an exception rendered as a string), and the combined
vision-model load + inference either yields a description string or
raises.  Speech synthesis (edge-tts) is modelled as always succeeding,
recording the text, voice and output file it was given; the spec notes
TTS failure is left unhandled, and no claim concerns it.
-/

namespace MuseumAlive

/-- One observable effect of a script run, in program order. -/
inductive Event where
  /-- `st.image(uploaded_file, ...)` displays the upload. -/
  | imageShown (img : String)
  /-- `load_vision_model()` plus `encode_image`/`answer_question`:
  the vision model was loaded and invoked on the image. -/
  | visionInvoked (img : String)
  /-- `st.info(...)` with the given message. -/
  | infoShown (msg : String)
  /-- `client.chat.completions.create(...)` was invoked with the given
  model, system message, user message and stream flag. -/
  | chatCalled (model system user : String) (stream : Bool)
  /-- `st.write(story)` displays the narrative. -/
  | storyShown (story : String)
  /-- `edge_tts.Communicate(text, voice)` followed by
  `communicate.save(file)`: audio for `text` with voice `voice` was
  written to `file`. -/
  | audioSynth (text voice file : String)
  /-- `st.audio(file)` plays back the named file. -/
  | audioPlayed (file : String)
  /-- `st.error(msg)`. -/
  | errorShown (msg : String)
  /-- `st.success(msg)`. -/
  | successShown (msg : String)
  /-- `st.stop()`: the script run aborts here. -/
  | stopped
  deriving DecidableEq, Repr

/-- Widget state and external-call outcomes for one script run.
`visionAvailable` is the `VISION_AVAILABLE` flag set by the import
guard; `useVisionToggle` is the sidebar toggle value (only rendered when
vision is available); `uploadedFile` is the file-uploader value (the
image modelled as an opaque string); `manualText` is the text-input
value; `visionButton` / `manualButton` are the two `st.button` values;
`visionOutcome` is what `load_vision_model` + inference would produce
(`Except.error e` models a raised exception with text `e`);
`chatOutcome` likewise for `client.chat.completions.create`
(`Except.ok c` carries `response.choices[0].message.content`). -/
structure Env where
  visionAvailable : Bool
  useVisionToggle : Bool
  uploadedFile : Option String
  manualText : String
  visionButton : Bool
  manualButton : Bool
  visionOutcome : Except String String
  chatOutcome : Except String String
  deriving Repr

/-- `use_vision` as computed in the sidebar: the toggle value when the
vision libraries loaded, otherwise forced to `False` (src/app.py:46-50). -/
def use_vision (env : Env) : Bool :=
  env.visionAvailable && env.useVisionToggle

/-- The fixed system message of the chat call (src/app.py:100). -/
def systemMessage : String :=
  "你是一个博物馆里的文物，富有性格和情感。"

/-- The f-string prompt of `get_artifact_story` with the description
interpolated (src/app.py:82-94), byte-faithful to the triple-quoted
source including indentation and the trailing indent before the closing
quotes. -/
def promptTemplate (artifact_description : String) : String :=
  "\n    我给你看了一张文物的图片，它的特征是：" ++ artifact_description ++
  "。\n    \n    请你根据这个描述，猜猜你可能是谁（如果特征很明显），或者就作为一个神秘的古物。\n    \n    请用第一人称（“我”）做一个自我介绍。\n    \n    要求：\n    1. 既然是“让文物说话”，语气要符合你的身份。\n    2. 不要只讲枯燥的数据，要讲你的感受。\n    3. 篇幅控制在 150 字以内。\n    4. 开头要吸引人。\n    "

/-- The chat model identifier passed to the completion call
(src/app.py:98). -/
def chatModel : String := "deepseek-chat"

/-- The fixed voice identifier passed to `edge_tts.Communicate`
(src/app.py:77). -/
def voiceId : String := "zh-CN-YunxiNeural"

/-- The placeholder narrative returned when the chat call raises
(src/app.py:107): the Python f-string
`f"哎呀，我看不清自己... ({str(e)})"`. -/
def placeholderStory (e : String) : String :=
  "哎呀，我看不清自己... (" ++ e ++ ")"

/-- Return value of `get_artifact_story` (src/app.py:80-107): the
response content on success, the formatted placeholder on exception. -/
def get_artifact_story (chatOutcome : Except String String)
    (artifact_description : String) : String :=
  match chatOutcome with
  | Except.ok content => content
  | Except.error e => placeholderStory e

/-- Effects of `get_artifact_story`: the completion call is attempted
with model `"deepseek-chat"`, the fixed system message, the prompt with
the description embedded, and `stream=False` — whether or not the call
then raises (src/app.py:96-104). -/
def get_artifact_story_events (artifact_description : String) :
    List Event :=
  [Event.chatCalled chatModel systemMessage
    (promptTemplate artifact_description) false]

/-- `generate_audio(text, output_file)` (src/app.py:75-78): builds
`edge_tts.Communicate(text, "zh-CN-YunxiNeural")` and saves it to
`output_file`. -/
def generate_audio (text output_file : String) : List Event :=
  [Event.audioSynth text voiceId output_file]

/-- The fixed output file name of the generation block
(src/app.py:146). -/
def outputFileName : String := "artifact_voice.mp3"

/-- The common generation block (src/app.py:137-152): guarded by the
truthiness of `artifact_description`; on a non-empty description it
generates the story, displays it, synthesizes audio to the fixed file,
plays back that file, and in the manual path shows a success note. -/
def generateBlock (env : Env) (artifact_description : String) :
    List Event :=
  if artifact_description.isEmpty then []
  else
    let story := get_artifact_story env.chatOutcome artifact_description
    get_artifact_story_events artifact_description ++
    [Event.storyShown story] ++
    generate_audio story outputFileName ++
    [Event.audioPlayed outputFileName] ++
    (if use_vision env then []
     else [Event.successShown
       "🎉 唤醒成功！(这是省流版，本地开启 Vision 可体验全自动)"])

/-- The vision-branch error message (src/app.py:130). -/
def visionErrorMsg (e : String) : String :=
  "视觉模型加载失败 (可能是内存不足): " ++ e

/-- The info shown with the vision description (src/app.py:128). -/
def visionInfoMsg (d : String) : String :=
  "👀 AI 看到的：" ++ d

/-- One run of the script body below the upload gate
(src/app.py:113-152).  Nothing below the gate runs without an uploaded
file.  In the vision branch the description is produced only behind the
vision button; a raised exception shows an error and `st.stop()` aborts
the run.  In the manual branch `artifact_description` is the text-input
value; the manual button guards only a `pass` statement (src/app.py:135)
and so does not gate the generation block, which runs on any non-empty
description. -/
def runApp (env : Env) : List Event :=
  match env.uploadedFile with
  | none => []
  | some img =>
    Event.imageShown img ::
    (if use_vision env then
       if env.visionButton then
         match env.visionOutcome with
         | Except.error e =>
             [Event.errorShown (visionErrorMsg e), Event.stopped]
         | Except.ok d =>
             Event.visionInvoked img ::
             Event.infoShown (visionInfoMsg d) ::
             generateBlock env d
       else generateBlock env ""
     else generateBlock env env.manualText)

/-- Whether an event touches the vision model (load or inference). -/
def Event.isVision : Event → Bool
  | Event.visionInvoked _ => true
  | _ => false

/-- Whether an event is a chat-completion invocation. -/
def Event.isChat : Event → Bool
  | Event.chatCalled _ _ _ _ => true
  | _ => false

/-- Whether an event is a speech-synthesis invocation. -/
def Event.isAudioSynth : Event → Bool
  | Event.audioSynth _ _ _ => true
  | _ => false

/-- Whether an event shows an error message. -/
def Event.isError : Event → Bool
  | Event.errorShown _ => true
  | _ => false

/-- The content of file `f` after replaying the writes in `evs` over an
initial content `init`; an `audioSynth` to `f` overwrites it with the
synthesized text (standing in for the rendered audio bytes). -/
def fileAfter (evs : List Event) (f : String) (init : Option String) :
    Option String :=
  evs.foldl
    (fun acc e =>
      match e with
      | Event.audioSynth t _ file => if file = f then some t else acc
      | _ => acc)
    init

/-- The failing input for C2: vision off, the manual description field
holds a non-empty string, and the trigger button is NOT pressed. -/
def c2Env : Env :=
  { visionAvailable := false, useVisionToggle := false,
    uploadedFile := some "photo.jpg",
    manualText := "三星堆青铜面具",
    visionButton := false, manualButton := false,
    visionOutcome := Except.error "unused",
    chatOutcome := Except.ok "我是三星堆的青铜面具。" }

end MuseumAlive

namespace MuseumAlive

/-! ## Claim theorems -/

/-- C1: if the chat-completion call raises any exception, then
`get_artifact_story` returns the placeholder narrative (containing the
exception text) instead of propagating, and the generation block still
proceeds to speech synthesis and playback with that placeholder as the
narrative text. -/
theorem chat_failure_placeholder_flows_to_audio
    (env : Env) (d e : String)
    (h1 : d.isEmpty = false) (h2 : env.chatOutcome = Except.error e) :
    get_artifact_story env.chatOutcome d = placeholderStory e ∧
    placeholderStory e = "哎呀，我看不清自己... (" ++ e ++ ")" ∧
    Event.audioSynth (placeholderStory e) voiceId outputFileName
      ∈ generateBlock env d ∧
    Event.audioPlayed outputFileName ∈ generateBlock env d := by
  refine ⟨by rw [h2]; rfl, rfl, ?_, ?_⟩ <;>
    simp [generateBlock, h1, h2, get_artifact_story, generate_audio,
      get_artifact_story_events]

/-- Witness for C1 at a concrete environment. -/
theorem chat_failure_placeholder_flows_to_audio_witness :
    get_artifact_story (Except.error "timeout") "青铜鼎"
        = placeholderStory "timeout" ∧
    placeholderStory "timeout" = "哎呀，我看不清自己... (" ++ "timeout" ++ ")" ∧
    Event.audioSynth (placeholderStory "timeout") voiceId outputFileName
      ∈ generateBlock
          { visionAvailable := false, useVisionToggle := false,
            uploadedFile := some "img", manualText := "青铜鼎",
            visionButton := false, manualButton := false,
            visionOutcome := Except.error "x",
            chatOutcome := Except.error "timeout" } "青铜鼎" ∧
    Event.audioPlayed outputFileName
      ∈ generateBlock
          { visionAvailable := false, useVisionToggle := false,
            uploadedFile := some "img", manualText := "青铜鼎",
            visionButton := false, manualButton := false,
            visionOutcome := Except.error "x",
            chatOutcome := Except.error "timeout" } "青铜鼎" :=
  chat_failure_placeholder_flows_to_audio
    { visionAvailable := false, useVisionToggle := false,
      uploadedFile := some "img", manualText := "青铜鼎",
      visionButton := false, manualButton := false,
      visionOutcome := Except.error "x",
      chatOutcome := Except.error "timeout" } "青铜鼎" "timeout" rfl rfl

end MuseumAlive
namespace MuseumAlive

/-- C2 (code behaviour at the failing input): with vision off, a
non-empty manual description and the trigger button not pressed, the run
still invokes narrative generation and speech synthesis — the button at
src/app.py:134 guards only a `pass`, so the generation block at
src/app.py:138 is gated on the description alone.  This contradicts the
claim (and the code's own `# Trigger next block` comment) that
generation is triggered only by the button press. -/
theorem manual_button_does_not_gate_generation :
    c2Env.manualButton = false ∧
    (runApp c2Env).any Event.isChat = true ∧
    (runApp c2Env).any Event.isAudioSynth = true :=
  ⟨rfl, rfl, rfl⟩

end MuseumAlive
namespace MuseumAlive

/-- C3: for every fixed description string, the completion call is
invoked with the model `"deepseek-chat"`, the fixed system message, the
prompt template with that exact string embedded, and `stream=False`; on
success `get_artifact_story` returns the response content verbatim, and
on failure the formatted error string. -/
theorem chat_call_prompt_and_return_values (d : String) :
    get_artifact_story_events d
      = [Event.chatCalled "deepseek-chat"
          "你是一个博物馆里的文物，富有性格和情感。"
          ("\n    我给你看了一张文物的图片，它的特征是：" ++ d ++
           "。\n    \n    请你根据这个描述，猜猜你可能是谁（如果特征很明显），或者就作为一个神秘的古物。\n    \n    请用第一人称（“我”）做一个自我介绍。\n    \n    要求：\n    1. 既然是“让文物说话”，语气要符合你的身份。\n    2. 不要只讲枯燥的数据，要讲你的感受。\n    3. 篇幅控制在 150 字以内。\n    4. 开头要吸引人。\n    ")
          false] ∧
    (∀ c : String, get_artifact_story (Except.ok c) d = c) ∧
    (∀ e : String, get_artifact_story (Except.error e) d
      = "哎呀，我看不清自己... (" ++ e ++ ")") :=
  ⟨rfl, fun _ => rfl, fun _ => rfl⟩

/-- C4: every synthesized narrative reaches speech synthesis unchanged
and with the fixed voice `"zh-CN-YunxiNeural"`: `generate_audio` passes
its text and the fixed voice verbatim, the generation block feeds it
exactly the generated story, and no speech-synthesis event of the block
carries any other text or voice. -/
theorem speech_synthesis_exact_text_and_voice
    (env : Env) (d : String) (h : d.isEmpty = false) :
    generate_audio (get_artifact_story env.chatOutcome d) outputFileName
      = [Event.audioSynth (get_artifact_story env.chatOutcome d)
          "zh-CN-YunxiNeural" outputFileName] ∧
    Event.audioSynth (get_artifact_story env.chatOutcome d)
        "zh-CN-YunxiNeural" outputFileName ∈ generateBlock env d ∧
    (∀ t v f, Event.audioSynth t v f ∈ generateBlock env d →
      t = get_artifact_story env.chatOutcome d ∧
      v = "zh-CN-YunxiNeural") := by
  refine ⟨rfl, ?_, ?_⟩
  · simp [generateBlock, h, generate_audio, get_artifact_story_events,
      voiceId]
  · intro t v f hm
    simp [generateBlock, h, generate_audio, get_artifact_story_events,
      voiceId] at hm
    rcases hm with ⟨ht, hv, _⟩
    exact ⟨ht, hv⟩

/-- Witness for C4 at a concrete environment and description. -/
theorem speech_synthesis_exact_text_and_voice_witness :
    let env : Env :=
      { visionAvailable := false, useVisionToggle := false,
        uploadedFile := some "img", manualText := "玉琮",
        visionButton := false, manualButton := true,
        visionOutcome := Except.error "x",
        chatOutcome := Except.ok "我是良渚的玉琮。" };
    generate_audio (get_artifact_story env.chatOutcome "玉琮")
        outputFileName
      = [Event.audioSynth (get_artifact_story env.chatOutcome "玉琮")
          "zh-CN-YunxiNeural" outputFileName] ∧
    Event.audioSynth (get_artifact_story env.chatOutcome "玉琮")
        "zh-CN-YunxiNeural" outputFileName ∈ generateBlock env "玉琮" ∧
    (∀ t v f, Event.audioSynth t v f ∈ generateBlock env "玉琮" →
      t = get_artifact_story env.chatOutcome "玉琮" ∧
      v = "zh-CN-YunxiNeural") :=
  speech_synthesis_exact_text_and_voice
    { visionAvailable := false, useVisionToggle := false,
      uploadedFile := some "img", manualText := "玉琮",
      visionButton := false, manualButton := true,
      visionOutcome := Except.error "x",
      chatOutcome := Except.ok "我是良渚的玉琮。" } "玉琮" rfl

/-- C5: when `use_vision` is `False`, the run never loads or invokes the
vision model, and description acquisition goes through the manual text
field: below the upload gate the run is exactly the image display
followed by the generation block applied to the text-input value. -/
theorem vision_off_uses_manual_text_never_vision
    (env : Env) (h : use_vision env = false) :
    (∀ e ∈ runApp env, e.isVision = false) ∧
    (∀ img, env.uploadedFile = some img →
      runApp env = Event.imageShown img :: generateBlock env env.manualText) := by
  constructor
  · intro e he
    unfold runApp at he
    match hu : env.uploadedFile with
    | none => rw [hu] at he; simp at he
    | some img =>
      rw [hu, h] at he
      simp at he
      rcases he with rfl | he
      · rfl
      · unfold generateBlock at he
        by_cases hm : env.manualText.isEmpty <;>
          simp [hm, h, generate_audio, get_artifact_story_events] at he
        rcases he with rfl | rfl | rfl | rfl | rfl <;> rfl
  · intro img hu
    unfold runApp
    rw [hu, h]
    simp

/-- Witness for C5 at a concrete environment. -/
theorem vision_off_uses_manual_text_never_vision_witness :
    let env : Env :=
      { visionAvailable := true, useVisionToggle := false,
        uploadedFile := some "vase.png", manualText := "唐三彩",
        visionButton := false, manualButton := false,
        visionOutcome := Except.ok "ignored",
        chatOutcome := Except.ok "我是唐三彩。" };
    (∀ e ∈ runApp env, e.isVision = false) ∧
    (∀ img, env.uploadedFile = some img →
      runApp env = Event.imageShown img :: generateBlock env env.manualText) :=
  vision_off_uses_manual_text_never_vision
    { visionAvailable := true, useVisionToggle := false,
      uploadedFile := some "vase.png", manualText := "唐三彩",
      visionButton := false, manualButton := false,
      visionOutcome := Except.ok "ignored",
      chatOutcome := Except.ok "我是唐三彩。" } rfl

end MuseumAlive
namespace MuseumAlive

/-! ## Shared helper lemmas about the generation block -/

/-- An empty description skips the generation block entirely. -/
theorem generateBlock_empty (env : Env) : generateBlock env "" = [] := rfl

/-- Every speech-synthesis event of the generation block carries the
generated story, the fixed voice, and the fixed output file. -/
theorem synth_mem_generateBlock {env : Env} {d t v f : String}
    (h : Event.audioSynth t v f ∈ generateBlock env d) :
    t = get_artifact_story env.chatOutcome d ∧ v = voiceId ∧
    f = outputFileName ∧ d.isEmpty = false := by
  by_cases hm : d.isEmpty
  · simp [generateBlock, hm] at h
  · by_cases hv : use_vision env <;>
      simp [generateBlock, hm, hv, generate_audio,
        get_artifact_story_events] at h
    · exact ⟨h.1, h.2.1, h.2.2, by simp [hm]⟩
    · exact ⟨h.1, h.2.1, h.2.2, by simp [hm]⟩

/-- Every playback event of the generation block reads the fixed output
file. -/
theorem played_mem_generateBlock {env : Env} {d f : String}
    (h : Event.audioPlayed f ∈ generateBlock env d) :
    f = outputFileName := by
  by_cases hm : d.isEmpty
  · simp [generateBlock, hm] at h
  · by_cases hv : use_vision env <;>
      simp [generateBlock, hm, hv, generate_audio,
        get_artifact_story_events] at h <;> exact h

/-- No chat event occurs in the generation block on an empty
description, and on a non-empty one exactly the single completion call
occurs; in particular there is never an error display or a stop in the
block. -/
theorem generateBlock_no_error (env : Env) (d : String) :
    ∀ e ∈ generateBlock env d, e.isError = false := by
  intro e he
  by_cases hm : d.isEmpty
  · simp [generateBlock, hm] at he
  · by_cases hv : use_vision env <;>
      simp [generateBlock, hm, hv, generate_audio,
        get_artifact_story_events] at he <;>
      rcases he with rfl | rfl | rfl | rfl | rfl <;> rfl

/-- A non-empty description drives the generation block to its full
event sequence: the completion call, the story display, the synthesis of
the story to the fixed file, and the playback of that file. -/
theorem generateBlock_nonempty (env : Env) (d : String)
    (h : d.isEmpty = false) :
    generateBlock env d =
      Event.chatCalled chatModel systemMessage (promptTemplate d) false ::
      Event.storyShown (get_artifact_story env.chatOutcome d) ::
      Event.audioSynth (get_artifact_story env.chatOutcome d) voiceId
        outputFileName ::
      Event.audioPlayed outputFileName ::
      (if use_vision env then []
       else [Event.successShown
         "🎉 唤醒成功！(这是省流版，本地开启 Vision 可体验全自动)"]) := by
  simp [generateBlock, h, generate_audio, get_artifact_story_events]

/-- Replaying the generation block over any prior file content leaves
the fixed output file holding exactly the newly generated story. -/
theorem fileAfter_generateBlock (env : Env) (d : String)
    (h : d.isEmpty = false) (init : Option String) :
    fileAfter (generateBlock env d) outputFileName init
      = some (get_artifact_story env.chatOutcome d) := by
  rw [generateBlock_nonempty env d h]
  by_cases hv : use_vision env <;> simp [hv, fileAfter]

end MuseumAlive
namespace MuseumAlive

/-- C6: with vision off and an empty manual description, narrative
generation is not triggered: the run contains no chat-completion call
and no speech synthesis, and below the upload gate only the image
display happens. -/
theorem empty_manual_description_skips_generation
    (env : Env) (h1 : use_vision env = false)
    (h2 : env.manualText = "") :
    (∀ e ∈ runApp env, e.isChat = false ∧ e.isAudioSynth = false) := by
  intro e he
  unfold runApp at he
  match hu : env.uploadedFile with
  | none => rw [hu] at he; simp at he
  | some img =>
    rw [hu, h1, h2, generateBlock_empty] at he
    simp at he
    subst he
    exact ⟨rfl, rfl⟩

/-- Witness for C6 at a concrete environment. -/
theorem empty_manual_description_skips_generation_witness :
    let env : Env :=
      { visionAvailable := true, useVisionToggle := false,
        uploadedFile := some "cup.jpg", manualText := "",
        visionButton := false, manualButton := true,
        visionOutcome := Except.ok "ignored",
        chatOutcome := Except.ok "ignored" };
    (∀ e ∈ runApp env, e.isChat = false ∧ e.isAudioSynth = false) :=
  empty_manual_description_skips_generation
    { visionAvailable := true, useVisionToggle := false,
      uploadedFile := some "cup.jpg", manualText := "",
      visionButton := false, manualButton := true,
      visionOutcome := Except.ok "ignored",
      chatOutcome := Except.ok "ignored" } rfl rfl

/-- C7: when the vision path is taken and the model load/inference
raises, the run shows the error message and stops: it is exactly the
image display, the error display, and the stop, with no narrative
generation and no speech synthesis afterwards. -/
theorem vision_failure_aborts_interaction
    (env : Env) (img e : String)
    (h1 : use_vision env = true) (h2 : env.visionButton = true)
    (h3 : env.uploadedFile = some img)
    (h4 : env.visionOutcome = Except.error e) :
    runApp env = [Event.imageShown img,
      Event.errorShown (visionErrorMsg e), Event.stopped] ∧
    (∀ ev ∈ runApp env, ev.isChat = false ∧ ev.isAudioSynth = false) := by
  have hr : runApp env = [Event.imageShown img,
      Event.errorShown (visionErrorMsg e), Event.stopped] := by
    unfold runApp
    rw [h3, h1, h2, h4]
    rfl
  refine ⟨hr, ?_⟩
  intro ev hev
  rw [hr] at hev
  simp at hev
  rcases hev with rfl | rfl | rfl <;> exact ⟨rfl, rfl⟩

/-- Witness for C7 at a concrete environment. -/
theorem vision_failure_aborts_interaction_witness :
    let env : Env :=
      { visionAvailable := true, useVisionToggle := true,
        uploadedFile := some "mask.png", manualText := "",
        visionButton := true, manualButton := false,
        visionOutcome := Except.error "out of memory",
        chatOutcome := Except.ok "ignored" };
    runApp env = [Event.imageShown "mask.png",
      Event.errorShown (visionErrorMsg "out of memory"), Event.stopped] ∧
    (∀ ev ∈ runApp env, ev.isChat = false ∧ ev.isAudioSynth = false) :=
  vision_failure_aborts_interaction
    { visionAvailable := true, useVisionToggle := true,
      uploadedFile := some "mask.png", manualText := "",
      visionButton := true, manualButton := false,
      visionOutcome := Except.error "out of memory",
      chatOutcome := Except.ok "ignored" } "mask.png" "out of memory"
    rfl rfl rfl rfl

/-- C9: without an uploaded file nothing below the upload gate runs at
all — no description entry, no narrative generation, no audio synthesis:
the run produces no events. -/
theorem no_upload_no_downstream_steps
    (env : Env) (h : env.uploadedFile = none) :
    runApp env = [] := by
  unfold runApp
  rw [h]

/-- Witness for C9 at a concrete environment. -/
theorem no_upload_no_downstream_steps_witness :
    runApp
      { visionAvailable := true, useVisionToggle := true,
        uploadedFile := none, manualText := "青花瓷",
        visionButton := true, manualButton := true,
        visionOutcome := Except.ok "a vase",
        chatOutcome := Except.ok "我是青花瓷。" } = [] :=
  no_upload_no_downstream_steps
    { visionAvailable := true, useVisionToggle := true,
      uploadedFile := none, manualText := "青花瓷",
      visionButton := true, manualButton := true,
      visionOutcome := Except.ok "a vase",
      chatOutcome := Except.ok "我是青花瓷。" } rfl

/-- C10: when the vision model succeeds but returns an empty
description, the run silently skips narrative generation and audio
synthesis — it is exactly the image display, the vision invocation and
the info display, with no chat call, no synthesis and no error
message. -/
theorem vision_empty_description_silently_skipped
    (env : Env) (img : String)
    (h1 : use_vision env = true) (h2 : env.visionButton = true)
    (h3 : env.uploadedFile = some img)
    (h4 : env.visionOutcome = Except.ok "") :
    runApp env = [Event.imageShown img, Event.visionInvoked img,
      Event.infoShown (visionInfoMsg "")] ∧
    (∀ ev ∈ runApp env,
      ev.isChat = false ∧ ev.isAudioSynth = false ∧ ev.isError = false) := by
  have hr : runApp env = [Event.imageShown img, Event.visionInvoked img,
      Event.infoShown (visionInfoMsg "")] := by
    unfold runApp
    rw [h3, h1, h2, h4]
    rfl
  refine ⟨hr, ?_⟩
  intro ev hev
  rw [hr] at hev
  simp at hev
  rcases hev with rfl | rfl | rfl <;> exact ⟨rfl, rfl, rfl⟩

/-- Witness for C10 at a concrete environment. -/
theorem vision_empty_description_silently_skipped_witness :
    let env : Env :=
      { visionAvailable := true, useVisionToggle := true,
        uploadedFile := some "coin.jpg", manualText := "ignored",
        visionButton := true, manualButton := false,
        visionOutcome := Except.ok "",
        chatOutcome := Except.ok "ignored" };
    runApp env = [Event.imageShown "coin.jpg",
      Event.visionInvoked "coin.jpg",
      Event.infoShown (visionInfoMsg "")] ∧
    (∀ ev ∈ runApp env,
      ev.isChat = false ∧ ev.isAudioSynth = false ∧ ev.isError = false) :=
  vision_empty_description_silently_skipped
    { visionAvailable := true, useVisionToggle := true,
      uploadedFile := some "coin.jpg", manualText := "ignored",
      visionButton := true, manualButton := false,
      visionOutcome := Except.ok "",
      chatOutcome := Except.ok "ignored" } "coin.jpg" rfl rfl rfl rfl

end MuseumAlive
namespace MuseumAlive

/-- The generation block on an empty description is empty. -/
theorem generateBlock_of_empty {env : Env} {d : String}
    (hm : d.isEmpty = true) : generateBlock env d = [] := by
  simp [generateBlock, hm]

/-- Core of C8: whenever the run decomposes into a synthesis-free,
playback-free, write-free prefix followed by the generation block on a
non-empty description, every synthesis targets the fixed file with the
generated story and the fixed voice, every playback reads the fixed
file, the fixed file ends up holding exactly the new story whatever it
held before, and the playback of the fixed file does occur. -/
theorem c8_core (env : Env) (d : String) (p : List Event)
    (hm : d.isEmpty = false)
    (hr : runApp env = p ++ generateBlock env d)
    (hps : ∀ e ∈ p, e.isAudioSynth = false)
    (hpp : ∀ e ∈ p, ∀ f, e ≠ Event.audioPlayed f)
    (hpf : ∀ init, fileAfter p "artifact_voice.mp3" init = init) :
    (∀ t v f, Event.audioSynth t v f ∈ runApp env →
      t = get_artifact_story env.chatOutcome d ∧ v = voiceId ∧
      f = "artifact_voice.mp3") ∧
    (∀ f, Event.audioPlayed f ∈ runApp env → f = "artifact_voice.mp3") ∧
    (∀ init : Option String,
      fileAfter (runApp env) "artifact_voice.mp3" init
        = some (get_artifact_story env.chatOutcome d)) ∧
    Event.audioPlayed "artifact_voice.mp3" ∈ runApp env := by
  refine ⟨?_, ?_, ?_, ?_⟩
  · intro t v f hmem
    rw [hr, List.mem_append] at hmem
    rcases hmem with hp | hg
    · exact absurd (hps _ hp) (by simp [Event.isAudioSynth])
    · rcases synth_mem_generateBlock hg with ⟨ht, hv2, hf, _⟩
      exact ⟨ht, hv2, hf⟩
  · intro f hmem
    rw [hr, List.mem_append] at hmem
    rcases hmem with hp | hg
    · exact absurd rfl (hpp _ hp f)
    · exact played_mem_generateBlock hg
  · intro init
    rw [hr]
    have happ : fileAfter (p ++ generateBlock env d) "artifact_voice.mp3"
        init = fileAfter (generateBlock env d) "artifact_voice.mp3"
        (fileAfter p "artifact_voice.mp3" init) := by
      simp [fileAfter, List.foldl_append]
    rw [happ, hpf]
    exact fileAfter_generateBlock env d hm init
  · rw [hr, List.mem_append]
    right
    rw [generateBlock_nonempty env d hm]
    simp [outputFileName]

/-- C8: in every run that performs speech synthesis, all synthesis
targets the single fixed file name `"artifact_voice.mp3"` with the
generated story, the file ends up holding exactly that story no matter
what it previously contained (overwrite), and the audio player reads
back exactly that file path. -/
theorem fixed_output_file_overwritten_and_played
    (env : Env) (h : (runApp env).any Event.isAudioSynth = true) :
    ∃ story : String,
      (∀ t v f, Event.audioSynth t v f ∈ runApp env →
        t = story ∧ v = voiceId ∧ f = "artifact_voice.mp3") ∧
      (∀ f, Event.audioPlayed f ∈ runApp env → f = "artifact_voice.mp3") ∧
      (∀ init : Option String,
        fileAfter (runApp env) "artifact_voice.mp3" init = some story) ∧
      Event.audioPlayed "artifact_voice.mp3" ∈ runApp env := by
  match hu : env.uploadedFile with
  | none =>
    rw [show runApp env = [] from by unfold runApp; rw [hu]] at h
    simp at h
  | some img =>
    by_cases hv : use_vision env
    · by_cases hb : env.visionButton
      · match ho : env.visionOutcome with
        | Except.error e =>
          have hr : runApp env = [Event.imageShown img,
              Event.errorShown (visionErrorMsg e), Event.stopped] := by
            unfold runApp; rw [hu, hv, hb, ho]; rfl
          rw [hr] at h
          simp [Event.isAudioSynth] at h
        | Except.ok d =>
          have hr : runApp env = [Event.imageShown img,
              Event.visionInvoked img,
              Event.infoShown (visionInfoMsg d)] ++ generateBlock env d := by
            unfold runApp; rw [hu, hv, hb, ho]; rfl
          by_cases hm : d.isEmpty
          · rw [hr, generateBlock_of_empty hm] at h
            simp [Event.isAudioSynth] at h
          · exact ⟨get_artifact_story env.chatOutcome d,
              c8_core env d _ (by simp [hm]) hr
                (by intro e he; simp at he
                    rcases he with rfl | rfl | rfl <;> rfl)
                (by intro e he f; simp at he
                    rcases he with rfl | rfl | rfl <;> simp)
                (fun _ => rfl)⟩
      · have hr : runApp env = [Event.imageShown img] := by
          unfold runApp; rw [hu, hv]; simp [hb, generateBlock_empty]
        rw [hr] at h
        simp [Event.isAudioSynth] at h
    · have hr : runApp env
          = [Event.imageShown img] ++ generateBlock env env.manualText := by
        unfold runApp
        rw [hu]
        simp [hv]
      by_cases hm : env.manualText.isEmpty
      · rw [hr, generateBlock_of_empty hm] at h
        simp [Event.isAudioSynth] at h
      · exact ⟨get_artifact_story env.chatOutcome env.manualText,
          c8_core env env.manualText _ (by simp [hm]) hr
            (by intro e he; simp at he; subst he; rfl)
            (by intro e he f; simp at he; subst he; simp)
            (fun _ => rfl)⟩

/-- Witness for C8 at a concrete environment. -/
theorem fixed_output_file_overwritten_and_played_witness :
    let env : Env :=
      { visionAvailable := false, useVisionToggle := false,
        uploadedFile := some "drum.jpg", manualText := "铜鼓",
        visionButton := false, manualButton := true,
        visionOutcome := Except.error "x",
        chatOutcome := Except.ok "我是一面铜鼓。" };
    ∃ story : String,
      (∀ t v f, Event.audioSynth t v f ∈ runApp env →
        t = story ∧ v = voiceId ∧ f = "artifact_voice.mp3") ∧
      (∀ f, Event.audioPlayed f ∈ runApp env → f = "artifact_voice.mp3") ∧
      (∀ init : Option String,
        fileAfter (runApp env) "artifact_voice.mp3" init = some story) ∧
      Event.audioPlayed "artifact_voice.mp3" ∈ runApp env :=
  fixed_output_file_overwritten_and_played
    { visionAvailable := false, useVisionToggle := false,
      uploadedFile := some "drum.jpg", manualText := "铜鼓",
      visionButton := false, manualButton := true,
      visionOutcome := Except.error "x",
      chatOutcome := Except.ok "我是一面铜鼓。" } rfl

end MuseumAlive
